import Mathlib

/-!
Verification of the Wellness Signal Engine of the MINCARE mind-workout app.

The definitions below are shallow embeddings of the derivation rules found in
the repository's components:
- `calculateStressLevel`  from StressSnap.tsx
- `analyzeSentiment`      from MoodJournal.tsx
- `moodPool` / `generateInsights` from MoodJournal.tsx
- `saveSleepSession`, `avgSleep`, `avgQuality` from CalmCircle.tsx
- `completeExercise`      from MindGym.tsx
- `calculatedScore` / `getScoreLabel` from Dashboard.tsx

JavaScript numbers are modelled as exact rationals (ℚ) or integers; the
amounts involved (tenths, small integer sums) are exactly representable in
IEEE doubles at these magnitudes, so the rational model is faithful.
`Math.floor` on an exact ratio of integers is integer floor-division, and
`Math.round` is floor of the argument plus one half.
-/

/-- JavaScript `Math.round`: rounds half towards positive infinity. -/
def jsRound (q : ℚ) : ℤ := Int.floor (q + 1/2)

/-! ## Stress Classifier (StressSnap.tsx, `calculateStressLevel`) -/

/-- `calculateStressLevel` from StressSnap.tsx:
`if (hr < 60) return 2; if (hr < 70) return 3; if (hr < 80) return 5;
 if (hr < 90) return 7; if (hr < 100) return 8; return 9;` -/
def calculateStressLevel (hr : ℤ) : ℕ :=
  if hr < 60 then 2
  else if hr < 70 then 3
  else if hr < 80 then 5
  else if hr < 90 then 7
  else if hr < 100 then 8
  else 9

/-! ## Progress Tracker (MindGym.tsx, `completeExercise`) -/

/-- The progress fields written by `completeExercise`. -/
structure ProgressResult where
  newStreak : ℕ
  newFitnessLevel : ℕ
deriving DecidableEq, Repr

/-- `completeExercise` from MindGym.tsx:
`const newFitnessLevel = Math.min(100, progress.fitness_level + 1);
 const newStreak = progress.streak_count + 1;` -/
def completeExercise (currentStreak currentFitnessLevel : ℕ) : ProgressResult :=
  { newStreak := currentStreak + 1
    newFitnessLevel := min 100 (currentFitnessLevel + 1) }

/-! ## Sleep save and Sleep Aggregator (CalmCircle.tsx) -/

/-- The fields of the row inserted into `sleep_sessions` that depend on the
form input (timestamps are kept as epoch milliseconds). -/
structure SleepInsert where
  sleep_start : ℤ
  sleep_end : ℤ
  duration_minutes : ℤ
  quality_score : ℕ
  bedtime_routine_followed : Bool
deriving DecidableEq, Repr

/-- `saveSleepSession` from CalmCircle.tsx. The only guard in the source is
`if (!sleepStart || !sleepEnd) return;` (missing form fields); timestamps are
epoch milliseconds and
`durationMinutes = Math.floor((end.getTime() - start.getTime()) / 60000)`.
`none` models the early return; `some row` models the insert. -/
def saveSleepSession (sleepStart sleepEnd : Option ℤ) (quality : ℕ)
    (routineFollowed : Bool) : Option SleepInsert :=
  match sleepStart, sleepEnd with
  | some s, some e =>
      some { sleep_start := s
             sleep_end := e
             duration_minutes := Int.fdiv (e - s) 60000
             quality_score := quality
             bedtime_routine_followed := routineFollowed }
  | _, _ => none

/-- `avgSleep` from CalmCircle.tsx (same formula as `avgSleep` in
Dashboard.tsx): `sessions.length > 0
 ? Math.round(sessions.reduce((acc, s) => acc + s.duration_minutes, 0)
     / sessions.length / 60 * 10) / 10 : 0`. -/
def avgSleep (durations : List ℤ) : ℚ :=
  if 0 < durations.length then
    (jsRound ((durations.sum : ℚ) / (durations.length : ℚ) / 60 * 10) : ℚ) / 10
  else 0

/-- `avgQuality` from CalmCircle.tsx: `sessions.length > 0
 ? Math.round(sessions.reduce((acc, s) => acc + s.quality_score, 0)
     / sessions.length * 10) / 10 : 0`. -/
def avgQuality (qualities : List ℤ) : ℚ :=
  if 0 < qualities.length then
    (jsRound ((qualities.sum : ℚ) / (qualities.length : ℚ) * 10) : ℚ) / 10
  else 0

/-! ## Wellness Score Aggregator (Dashboard.tsx) -/

/-- `calculatedScore` from Dashboard.tsx:
`Math.min(100, Math.round((moodCount > 0 ? 20 : 0) +
  (exercisesCompleted > 0 ? 25 : 0) +
  (avgStress > 0 && avgStress <= 5 ? 20 : avgStress > 5 ? 10 : 0) +
  (avgSleep >= 7 && avgSleep <= 9 ? 25 : avgSleep > 0 ? 15 : 0) +
  (streakDays * 2)))`.
The summands are integers, so the inner `Math.round` is the identity and is
dropped. `avgSleepH` is the rounded average sleep in hours (a rational). -/
def calculatedScore (moodCount exercisesCompleted avgStress : ℕ)
    (avgSleepH : ℚ) (streakDays : ℕ) : ℕ :=
  min 100 (
    (if moodCount > 0 then 20 else 0) +
    (if exercisesCompleted > 0 then 25 else 0) +
    (if avgStress > 0 ∧ avgStress ≤ 5 then 20 else if avgStress > 5 then 10 else 0) +
    (if 7 ≤ avgSleepH ∧ avgSleepH ≤ 9 then 25 else if 0 < avgSleepH then 15 else 0) +
    streakDays * 2)

/-- `getScoreLabel` from Dashboard.tsx. -/
def getScoreLabel (score : ℕ) : String :=
  if score ≥ 75 then "Excellent"
  else if score ≥ 50 then "Good"
  else if score ≥ 25 then "Fair"
  else "Needs Attention"

/-- The wellness-score formula as the specification words it: buckets b1–b5,
summed and clamped to 100. Written from the spec text, to be compared with
`calculatedScore` (the code). -/
def wellnessSpecScore (moodEntryCount fitnessLevel avgStressTier : ℕ)
    (avgSleepHours : ℚ) (streakDays : ℕ) : ℕ :=
  min 100 (
    (if moodEntryCount > 0 then 20 else 0) +
    (if fitnessLevel > 0 then 25 else 0) +
    (if 0 < avgStressTier ∧ avgStressTier ≤ 5 then 20
     else if avgStressTier > 5 then 10 else 0) +
    (if 7 ≤ avgSleepHours ∧ avgSleepHours ≤ 9 then 25
     else if avgSleepHours > 0 then 15 else 0) +
    2 * streakDays)

/-! ## Lexicon Sentiment Scorer (MoodJournal.tsx, `analyzeSentiment`) -/

/-- Whether `needle` is an initial segment of `haystack` (character lists). -/
def startsWithChars : List Char → List Char → Bool
  | [], _ => true
  | _ :: _, [] => false
  | a :: as, b :: bs => a == b && startsWithChars as bs

/-- JavaScript `String.prototype.includes`: `needle` occurs as a contiguous
substring of `haystack`. -/
def containsSub (needle : List Char) : List Char → Bool
  | [] => startsWithChars needle []
  | c :: rest => startsWithChars needle (c :: rest) || containsSub needle rest

/-- The POSITIVE vocabulary of `analyzeSentiment` in MoodJournal.tsx. -/
def positiveWords : List String :=
  ["happy", "good", "great", "wonderful", "excellent",
   "love", "joy", "peace", "calm", "grateful"]

/-- The NEGATIVE vocabulary of `analyzeSentiment` in MoodJournal.tsx. -/
def negativeWords : List String :=
  ["sad", "bad", "terrible", "awful", "hate",
   "angry", "stress", "anxious", "worried", "pain"]

/-- `text.toLowerCase()` as a character list. -/
def lowerChars (text : String) : List Char := text.data.map Char.toLower

/-- `analyzeSentiment` from MoodJournal.tsx: lower-case the text, add 0.1 per
positive vocabulary word found as a substring, subtract 0.1 per negative
vocabulary word found, then clamp with
`Math.max(-1, Math.min(1, score))`. -/
def analyzeSentiment (text : String) : ℚ :=
  let lowerText := lowerChars text
  let score : ℚ :=
    positiveWords.foldl
      (fun s w => if containsSub w.data lowerText then s + 1/10 else s) 0
  let score2 : ℚ :=
    negativeWords.foldl
      (fun s w => if containsSub w.data lowerText then s - 1/10 else s) score
  max (-1) (min 1 score2)

/-- Number of vocabulary words of `words` occurring as substrings of the
lower-cased text (each vocabulary word counted once). -/
def countMatches (words : List String) (text : String) : ℕ :=
  (words.filter (fun w => containsSub w.data (lowerChars text))).length

/-! ## Insight Generator (MoodJournal.tsx, `generateInsights`) -/

/-- Suffix appended when sentiment < -0.3. -/
def selfCareSuffix : String :=
  " Your entry suggests you might benefit from extra self-care today."

/-- Suffix appended when sentiment > 0.3. -/
def positiveEnergySuffix : String :=
  " Your positive energy is wonderful to see!"

/-- The `insights` record of `generateInsights` in MoodJournal.tsx, with the
`|| [default]` fallback for unknown mood categories. -/
def moodPool (mood : String) : List String :=
  if mood = "anxious" then
    ["Try the 4-7-8 breathing technique to calm your nervous system.",
     "Consider a 5-minute meditation to ground yourself.",
     "Take a short walk outside to reset your mind."]
  else if mood = "sad" then
    ["Reach out to a friend or loved one for connection.",
     "Practice self-compassion - it\u0027s okay to feel this way.",
     "Try gentle movement like yoga or stretching."]
  else if mood = "frustrated" then
    ["Take a brief break to reset before continuing.",
     "Journal about what\u0027s causing frustration to gain clarity.",
     "Try progressive muscle relaxation to release tension."]
  else if mood = "tired" then
    ["Consider your sleep schedule - are you getting 7-9 hours?",
     "A 10-minute power nap might help recharge.",
     "Review your evening routine for better rest tonight."]
  else if mood = "happy" then
    ["Great! Capture this moment in your gratitude journal.",
     "Share your positivity with the CalmCircle community.",
     "Notice what contributed to this feeling."]
  else if mood = "calm" then
    ["Wonderful! You\u0027re in a great state for meditation or reflection.",
     "This is an ideal time for creative work or planning.",
     "Consider what helped you reach this peaceful state."]
  else ["Keep tracking your mood to identify patterns."]

/-- The six mood categories with their own message pools. -/
def knownMoods : List String :=
  ["happy", "sad", "anxious", "calm", "frustrated", "tired"]

/-- `generateInsights` from MoodJournal.tsx. The source draws
`Math.floor(Math.random() * moodInsights.length)`, a uniformly random index
into the pool; the nondeterminism is modelled by the explicit `choice`
parameter reduced modulo the pool length. -/
def generateInsights (mood : String) (sentiment : ℚ) (choice : ℕ) : String :=
  let moodInsights := moodPool mood
  let randomInsight := moodInsights.getD (choice % moodInsights.length) ""
  if sentiment < -(3/10) then randomInsight ++ selfCareSuffix
  else if sentiment > 3/10 then randomInsight ++ positiveEnergySuffix
  else randomInsight

/-! ## Theorems -/

/-- C2: the Stress Classifier returns a tier in {2,3,5,7,8,9} by fixed
breakpoints; [40,59]→2, [60,69]→3, [70,79]→5, [80,89]→7, [90,99]→8,
[100,∞)→9; each boundary (60,70,80,90,100) belongs to the higher bucket; and
the mapping is a monotone step function of heart rate. -/
theorem stressClassifier_correct :
    (∀ hr : ℤ, calculateStressLevel hr = 2 ∨ calculateStressLevel hr = 3 ∨
      calculateStressLevel hr = 5 ∨ calculateStressLevel hr = 7 ∨
      calculateStressLevel hr = 8 ∨ calculateStressLevel hr = 9) ∧
    (∀ hr : ℤ, 40 ≤ hr → hr ≤ 59 → calculateStressLevel hr = 2) ∧
    (∀ hr : ℤ, 60 ≤ hr → hr ≤ 69 → calculateStressLevel hr = 3) ∧
    (∀ hr : ℤ, 70 ≤ hr → hr ≤ 79 → calculateStressLevel hr = 5) ∧
    (∀ hr : ℤ, 80 ≤ hr → hr ≤ 89 → calculateStressLevel hr = 7) ∧
    (∀ hr : ℤ, 90 ≤ hr → hr ≤ 99 → calculateStressLevel hr = 8) ∧
    (∀ hr : ℤ, 100 ≤ hr → calculateStressLevel hr = 9) ∧
    (calculateStressLevel 60 = 3 ∧ calculateStressLevel 70 = 5 ∧
      calculateStressLevel 80 = 7 ∧ calculateStressLevel 90 = 8 ∧
      calculateStressLevel 100 = 9) ∧
    (∀ a b : ℤ, a ≤ b → calculateStressLevel a ≤ calculateStressLevel b) :=
  have mem : ∀ hr : ℤ, calculateStressLevel hr = 2 ∨ calculateStressLevel hr = 3 ∨
      calculateStressLevel hr = 5 ∨ calculateStressLevel hr = 7 ∨
      calculateStressLevel hr = 8 ∨ calculateStressLevel hr = 9 := by
    intro hr; unfold calculateStressLevel; split_ifs <;> simp
  have mono : ∀ a b : ℤ, a ≤ b → calculateStressLevel a ≤ calculateStressLevel b := by
    intro a b hab; unfold calculateStressLevel; split_ifs <;> omega
  ⟨mem,
   by intro hr h1 h2; unfold calculateStressLevel; split_ifs <;> omega,
   by intro hr h1 h2; unfold calculateStressLevel; split_ifs <;> omega,
   by intro hr h1 h2; unfold calculateStressLevel; split_ifs <;> omega,
   by intro hr h1 h2; unfold calculateStressLevel; split_ifs <;> omega,
   by intro hr h1 h2; unfold calculateStressLevel; split_ifs <;> omega,
   by intro hr h1; unfold calculateStressLevel; split_ifs <;> omega,
   by refine ⟨?_, ?_, ?_, ?_, ?_⟩ <;> decide,
   mono⟩

/-- Witness for C2 at concrete inputs. -/
theorem stressClassifier_correct_witness :
    calculateStressLevel 45 = 2 ∧ calculateStressLevel 95 = 8 ∧
    calculateStressLevel 130 = 9 ∧
    calculateStressLevel 55 ≤ calculateStressLevel 85 :=
  ⟨stressClassifier_correct.2.1 45 (by decide) (by decide),
   stressClassifier_correct.2.2.2.2.2.1 95 (by decide) (by decide),
   stressClassifier_correct.2.2.2.2.2.2.1 130 (by decide),
   stressClassifier_correct.2.2.2.2.2.2.2.2 55 85 (by decide)⟩

/-- C7: completing an exercise always increments the streak by one (no
day-gap check) and increments the fitness level saturating at 100; in
particular `complete(3,99) = {4,100}` and `complete(0,0) = {1,1}`. -/
theorem progressTracker_correct :
    (∀ s f : ℕ, completeExercise s f =
      { newStreak := s + 1, newFitnessLevel := min 100 (f + 1) }) ∧
    (∀ s f : ℕ, (completeExercise s f).newFitnessLevel ≤ 100) ∧
    completeExercise 3 99 = { newStreak := 4, newFitnessLevel := 100 } ∧
    completeExercise 0 0 = { newStreak := 1, newFitnessLevel := 1 } :=
  ⟨fun _ _ => rfl,
   fun _ f => min_le_left 100 (f + 1),
   by decide, by decide⟩

/-- C3 (code bug): `saveSleepSession` performs no end-before-start check.
With sleep-end 0 ms and sleep-start 90000 ms (end earlier than start) it
computes and inserts a negative duration, `-2` minutes. -/
theorem saveSleepSession_stores_negative_duration :
    saveSleepSession (some 90000) (some 0) 7 false =
      some { sleep_start := 90000, sleep_end := 0, duration_minutes := -2,
             quality_score := 7, bedtime_routine_followed := false } ∧
    ∃ r, saveSleepSession (some 90000) (some 0) 7 false = some r ∧
      r.duration_minutes < 0 :=
  ⟨by decide,
   { sleep_start := 90000, sleep_end := 0, duration_minutes := -2,
     quality_score := 7, bedtime_routine_followed := false },
   by decide, by decide⟩

/-- C8: the Sleep Aggregator on the empty session list returns 0 average
hours and 0 average quality (a defined sentinel, not a failure). -/
theorem sleepAggregator_empty_sentinel :
    avgSleep ([] : List ℤ) = 0 ∧ avgQuality ([] : List ℤ) = 0 :=
  ⟨rfl, rfl⟩

/-- `jsRound` at the whole number 75. -/
lemma jsRound_75 : jsRound (75 : ℚ) = 75 := by
  simp only [jsRound]
  rw [Int.floor_eq_iff]
  norm_num

/-- Evaluation of the sleep-hours average on durations [420, 480, 450]. -/
lemma avgSleep_three_nights_eval : avgSleep [420, 480, 450] = 15/2 := by
  simp only [avgSleep, List.sum_cons, List.sum_nil, List.length_cons,
    List.length_nil]
  norm_num [jsRound_75]

/-- C4 counterexample: on durations [420, 480, 450] the average-hours output
is 7.5, not 7.2 as the claim states. -/
theorem avgSleep_three_nights_not_7_2 :
    avgSleep [420, 480, 450] ≠ 36/5 := by
  rw [avgSleep_three_nights_eval]; norm_num

/-- C4 amended: on durations [420, 480, 450] the average-hours output equals
7.5 = round((420+480+450)/3/60, 1): the mean duration in minutes divided by
60 and rounded to one decimal place. -/
theorem avgSleep_three_nights :
    avgSleep [420, 480, 450] = 15/2 ∧
    avgSleep [420, 480, 450] =
      (jsRound (((420 + 480 + 450 : ℚ)) / 3 / 60 * 10) : ℚ) / 10 := by
  refine ⟨avgSleep_three_nights_eval, ?_⟩
  rw [avgSleep_three_nights_eval]
  norm_num [jsRound_75]

/-- Folding `+ 1/10` per matching word counts the matching words. -/
lemma foldl_add_tenth (p : String → Bool) (l : List String) :
    ∀ init : ℚ,
      l.foldl (fun s w => if p w then s + 1/10 else s) init
        = init + ((l.filter p).length : ℚ) / 10 := by
  induction l with
  | nil => intro init; simp
  | cons hd tl ih =>
    intro init
    by_cases h : p hd
    · simp only [List.foldl_cons, List.filter_cons, h, if_true]
      rw [ih]
      push_cast [List.length_cons]
      ring
    · simp only [List.foldl_cons, List.filter_cons, h, if_false]
      rw [ih]
      simp [h]

/-- Folding `- 1/10` per matching word counts the matching words. -/
lemma foldl_sub_tenth (p : String → Bool) (l : List String) :
    ∀ init : ℚ,
      l.foldl (fun s w => if p w then s - 1/10 else s) init
        = init - ((l.filter p).length : ℚ) / 10 := by
  induction l with
  | nil => intro init; simp
  | cons hd tl ih =>
    intro init
    by_cases h : p hd
    · simp only [List.foldl_cons, List.filter_cons, h, if_true]
      rw [ih]
      push_cast [List.length_cons]
      ring
    · simp only [List.foldl_cons, List.filter_cons, h, if_false]
      rw [ih]
      simp [h]

/-- The positive-match count is at most the vocabulary size, 10. -/
lemma countMatches_pos_le (text : String) :
    (countMatches positiveWords text : ℚ) ≤ 10 := by
  have h := List.length_filter_le
    (fun w => containsSub w.data (lowerChars text)) positiveWords
  have : countMatches positiveWords text ≤ 10 := h
  exact_mod_cast this

/-- The negative-match count is at most the vocabulary size, 10. -/
lemma countMatches_neg_le (text : String) :
    (countMatches negativeWords text : ℚ) ≤ 10 := by
  have h := List.length_filter_le
    (fun w => containsSub w.data (lowerChars text)) negativeWords
  have : countMatches negativeWords text ≤ 10 := h
  exact_mod_cast this

/-- Closed form of `analyzeSentiment`: one tenth of the positive-match count
minus one tenth of the negative-match count; the clamp is the identity. -/
lemma analyzeSentiment_eq (text : String) :
    analyzeSentiment text =
      (countMatches positiveWords text : ℚ) / 10 -
      (countMatches negativeWords text : ℚ) / 10 := by
  have hP0 : (0 : ℚ) ≤ (countMatches positiveWords text : ℚ) := by positivity
  have hN0 : (0 : ℚ) ≤ (countMatches negativeWords text : ℚ) := by positivity
  have hP := countMatches_pos_le text
  have hN := countMatches_neg_le text
  simp only [analyzeSentiment, countMatches]
  rw [foldl_add_tenth, foldl_sub_tenth, zero_add]
  have hle : (countMatches positiveWords text : ℚ) / 10 -
      (countMatches negativeWords text : ℚ) / 10 ≤ 1 := by
    rw [div_sub_div_same]
    rw [div_le_one (by norm_num)]
    linarith
  have hge : (-1 : ℚ) ≤ (countMatches positiveWords text : ℚ) / 10 -
      (countMatches negativeWords text : ℚ) / 10 := by
    rw [div_sub_div_same]
    rw [le_div_iff₀ (by norm_num)]
    linarith
  rw [show (((positiveWords.filter
      (fun w => containsSub w.data (lowerChars text))).length : ℚ))
      = (countMatches positiveWords text : ℚ) from rfl,
    show (((negativeWords.filter
      (fun w => containsSub w.data (lowerChars text))).length : ℚ))
      = (countMatches negativeWords text : ℚ) from rfl]
  rw [min_eq_right hle, max_eq_right hge]

/-- C10: the sentiment score is exactly 0.1 times the number of distinct
positive vocabulary words occurring as substrings of the lower-cased text
minus 0.1 times the number of distinct negative vocabulary words so
occurring; each vocabulary word contributes once no matter how often it
occurs (score of "happy happy happy" equals score of "happy"); each
vocabulary has exactly 10 words, the un-clamped total already lies in
[-1,1], and the final clamp never changes the returned value. -/
theorem sentiment_lexicon_formula :
    (∀ text : String,
      analyzeSentiment text =
        (countMatches positiveWords text : ℚ) / 10 -
        (countMatches negativeWords text : ℚ) / 10) ∧
    (∀ text : String,
      -1 ≤ (countMatches positiveWords text : ℚ) / 10 -
        (countMatches negativeWords text : ℚ) / 10 ∧
      (countMatches positiveWords text : ℚ) / 10 -
        (countMatches negativeWords text : ℚ) / 10 ≤ 1) ∧
    positiveWords.length = 10 ∧ negativeWords.length = 10 ∧
    analyzeSentiment "happy happy happy" = analyzeSentiment "happy" := by
  refine ⟨analyzeSentiment_eq, ?_, rfl, rfl, ?_⟩
  · intro text
    have hP0 : (0 : ℚ) ≤ (countMatches positiveWords text : ℚ) := by positivity
    have hN0 : (0 : ℚ) ≤ (countMatches negativeWords text : ℚ) := by positivity
    have hP := countMatches_pos_le text
    have hN := countMatches_neg_le text
    constructor
    · rw [div_sub_div_same, le_div_iff₀ (by norm_num)]
      linarith
    · rw [div_sub_div_same, div_le_one (by norm_num)]
      linarith
  · rw [analyzeSentiment_eq, analyzeSentiment_eq]
    have h1 : countMatches positiveWords "happy happy happy" = 1 := by decide
    have h2 : countMatches negativeWords "happy happy happy" = 0 := by decide
    have h3 : countMatches positiveWords "happy" = 1 := by decide
    have h4 : countMatches negativeWords "happy" = 0 := by decide
    rw [h1, h2, h3, h4]

/-- C5: the sentiment score is always in [-1,1]; the empty string scores
exactly 0; "I am happy and love this" scores strictly positive; and
"I am sad and angry" scores strictly negative. -/
theorem sentiment_bounded_and_signed :
    (∀ text : String,
      -1 ≤ analyzeSentiment text ∧ analyzeSentiment text ≤ 1) ∧
    analyzeSentiment "" = 0 ∧
    0 < analyzeSentiment "I am happy and love this" ∧
    analyzeSentiment "I am sad and angry" < 0 := by
  refine ⟨?_, ?_, ?_, ?_⟩
  · intro text
    constructor
    · exact le_max_left _ _
    · exact max_le (by norm_num) (min_le_left _ _)
  · rw [analyzeSentiment_eq]
    have h1 : countMatches positiveWords "" = 0 := by decide
    have h2 : countMatches negativeWords "" = 0 := by decide
    rw [h1, h2]
    norm_num
  · rw [analyzeSentiment_eq]
    have h1 : countMatches positiveWords "I am happy and love this" = 2 := by
      decide
    have h2 : countMatches negativeWords "I am happy and love this" = 0 := by
      decide
    rw [h1, h2]
    norm_num
  · rw [analyzeSentiment_eq]
    have h1 : countMatches positiveWords "I am sad and angry" = 0 := by decide
    have h2 : countMatches negativeWords "I am sad and angry" = 2 := by decide
    rw [h1, h2]
    norm_num

/-- C1: the code's wellness score equals the spec formula
min(100, b1+b2+b3+b4+b5) for every input; the label is "Excellent" iff
score ≥ 75, "Good" iff 50 ≤ score < 75, "Fair" iff 25 ≤ score < 50, and
"Needs Attention" iff score < 25; compute(5,10,4,8,3) = 96 with label
"Excellent"; and with streakDays = 50 the total clamps to exactly 100. -/
theorem wellnessScore_correct :
    (∀ (m f st : ℕ) (sl : ℚ) (str : ℕ),
      calculatedScore m f st sl str = wellnessSpecScore m f st sl str) ∧
    (∀ s : ℕ,
      (getScoreLabel s = "Excellent" ↔ 75 ≤ s) ∧
      (getScoreLabel s = "Good" ↔ 50 ≤ s ∧ s < 75) ∧
      (getScoreLabel s = "Fair" ↔ 25 ≤ s ∧ s < 50) ∧
      (getScoreLabel s = "Needs Attention" ↔ s < 25)) ∧
    calculatedScore 5 10 4 8 3 = 96 ∧
    getScoreLabel (calculatedScore 5 10 4 8 3) = "Excellent" ∧
    calculatedScore 5 10 4 8 50 = 100 := by
  have score96 : calculatedScore 5 10 4 8 3 = 96 := by
    unfold calculatedScore
    norm_num
  refine ⟨?_, ?_, score96, ?_, ?_⟩
  · intro m f st sl str
    unfold calculatedScore wellnessSpecScore
    rw [Nat.mul_comm str 2]
  · intro s
    unfold getScoreLabel
    split_ifs with h1 h2 h3
    · exact ⟨iff_of_true rfl h1, iff_of_false (by decide) (by omega),
        iff_of_false (by decide) (by omega), iff_of_false (by decide) (by omega)⟩
    · exact ⟨iff_of_false (by decide) (by omega), iff_of_true rfl (by omega),
        iff_of_false (by decide) (by omega), iff_of_false (by decide) (by omega)⟩
    · exact ⟨iff_of_false (by decide) (by omega), iff_of_false (by decide) (by omega),
        iff_of_true rfl (by omega), iff_of_false (by decide) (by omega)⟩
    · exact ⟨iff_of_false (by decide) (by omega), iff_of_false (by decide) (by omega),
        iff_of_false (by decide) (by omega), iff_of_true rfl (by omega)⟩
  · rw [score96]
    decide
  · unfold calculatedScore
    norm_num

/-- The message pool of every mood category is non-empty. -/
lemma moodPool_ne_nil (mood : String) : moodPool mood ≠ [] := by
  unfold moodPool
  split_ifs <;> simp

/-- Indexing a non-empty list at an index reduced modulo its length yields a
member of the list. -/
lemma getD_mod_mem (l : List String) (h : l ≠ []) (i : ℕ) :
    l.getD (i % l.length) "" ∈ l := by
  have hlen : 0 < l.length := List.length_pos.mpr h
  have hlt : i % l.length < l.length := Nat.mod_lt _ hlen
  rw [List.getD_eq_getElem?_getD, List.getElem?_eq_getElem hlt]
  simp

/-- C6: every output of the Insight Generator is a base message from the
mood's pool, with the self-care suffix appended iff sentiment < -0.3, the
positive-energy suffix appended iff sentiment > 0.3, and no suffix when
-0.3 ≤ sentiment ≤ 0.3; unknown mood categories use the single generic
fallback message. -/
theorem insightGenerator_correct :
    (∀ (mood : String) (sentiment : ℚ) (choice : ℕ),
      sentiment < -(3/10) →
      ∃ base, base ∈ moodPool mood ∧
        generateInsights mood sentiment choice = base ++ selfCareSuffix) ∧
    (∀ (mood : String) (sentiment : ℚ) (choice : ℕ),
      (3/10 : ℚ) < sentiment →
      ∃ base, base ∈ moodPool mood ∧
        generateInsights mood sentiment choice = base ++ positiveEnergySuffix) ∧
    (∀ (mood : String) (sentiment : ℚ) (choice : ℕ),
      -(3/10) ≤ sentiment → sentiment ≤ 3/10 →
      generateInsights mood sentiment choice ∈ moodPool mood) ∧
    (∀ mood : String, mood ∉ knownMoods →
      moodPool mood = ["Keep tracking your mood to identify patterns."]) := by
  refine ⟨?_, ?_, ?_, ?_⟩
  · intro mood sentiment choice h
    refine ⟨(moodPool mood).getD (choice % (moodPool mood).length) "",
      getD_mod_mem _ (moodPool_ne_nil mood) _, ?_⟩
    simp only [generateInsights]
    rw [if_pos h]
  · intro mood sentiment choice h
    refine ⟨(moodPool mood).getD (choice % (moodPool mood).length) "",
      getD_mod_mem _ (moodPool_ne_nil mood) _, ?_⟩
    simp only [generateInsights]
    rw [if_neg (by linarith), if_pos h]
  · intro mood sentiment choice h1 h2
    simp only [generateInsights]
    rw [if_neg (by linarith), if_neg (by simpa using h2)]
    exact getD_mod_mem _ (moodPool_ne_nil mood) _
  · intro mood h
    unfold moodPool
    split_ifs with g1 g2 g3 g4 g5 g6
    · subst g1; exact absurd (by decide) h
    · subst g2; exact absurd (by decide) h
    · subst g3; exact absurd (by decide) h
    · subst g4; exact absurd (by decide) h
    · subst g5; exact absurd (by decide) h
    · subst g6; exact absurd (by decide) h
    · rfl

/-- Witness for C6 at concrete inputs: a strongly negative entry for a happy
mood, a strongly positive entry for a sad mood, a neutral entry for a calm
mood, and an unknown mood category. -/
theorem insightGenerator_correct_witness :
    (∃ base, base ∈ moodPool "happy" ∧
      generateInsights "happy" (-(1/2)) 0 = base ++ selfCareSuffix) ∧
    (∃ base, base ∈ moodPool "sad" ∧
      generateInsights "sad" (1/2) 1 = base ++ positiveEnergySuffix) ∧
    generateInsights "calm" 0 2 ∈ moodPool "calm" ∧
    moodPool "surprised" = ["Keep tracking your mood to identify patterns."] :=
  ⟨insightGenerator_correct.1 "happy" (-(1/2)) 0 (by norm_num),
   insightGenerator_correct.2.1 "sad" (1/2) 1 (by norm_num),
   insightGenerator_correct.2.2.1 "calm" 0 2 (by norm_num) (by norm_num),
   insightGenerator_correct.2.2.2 "surprised" (by decide)⟩

/-- C9: the derived numeric signals — sentiment score, stress tier, and
wellness score — are deterministic pure functions of their inputs: two
evaluations on identical inputs return identical outputs; in particular
recomputing the wellness score twice from unchanged aggregates is
idempotent. -/
theorem derivedSignals_deterministic :
    (∀ text : String, analyzeSentiment text = analyzeSentiment text) ∧
    (∀ hr : ℤ, calculateStressLevel hr = calculateStressLevel hr) ∧
    (∀ (m f st : ℕ) (sl : ℚ) (str : ℕ),
      calculatedScore m f st sl str = calculatedScore m f st sl str) :=
  ⟨fun _ => rfl, fun _ => rfl, fun _ _ _ _ _ => rfl⟩
